import Mathlib

/-!
Verification of the PR-analyzer orchestration core against its
natural-language specification.  The definitions below are a shallow
embedding of the Python sources:

* `app/agents/base_agent.py`   — severity parsing, language detection,
  `analyze_file` with its catch-all error handling;
* `app/agents/style_agent.py`, `security_agent.py`, `bug_agent.py`,
  `performance_agent.py` — two-tier result extraction
  (`parse_analysis_result` and the `_parse_text_response` fallbacks);
* `app/celery_app.py`          — `analyze_pr_task` (Celery retry policy
  `countdown=60, max_retries=3`) and `_update_task_status`;
* `app/main.py`                — `get_task_status`, `get_analysis_results`;
* `app/models.py`              — the `AnalysisTask` row and `TaskStatus` enum.

External collaborators (the LLM backend, the regex engine, the JSON
decoder, the database session) are modelled as explicit inputs: a raw
LLM response is represented by the two views the code takes of it
(the regex-extracted JSON payload, and the per-pattern line matches of
the fallback scan), and the database by an explicit store value plus an
availability flag.
-/

namespace PrAnalyzer

/-! ## Severity and issue model (`app/agents/base_agent.py`) -/

/-- `IssueSeverity` enum from `base_agent.py`. -/
inductive IssueSeverity where
  | critical
  | high
  | medium
  | low
deriving DecidableEq

/-- ASCII lowercasing of one character, the per-character behaviour of
Python's `str.lower` on the ASCII range. -/
def lowerChar (c : Char) : Char :=
  if 'A' ≤ c ∧ c ≤ 'Z' then Char.ofNat (c.toNat + 32) else c

/-- Python's `str.lower` (restricted to per-character ASCII lowering,
which is all the severity strings and file extensions exercise). -/
def pyLower (s : String) : String := ⟨s.data.map lowerChar⟩

/-- The `severity_map` dictionary lookup inside `BaseAgent._parse_severity`,
keyed by the already-lowercased severity string; `none` models a missing key. -/
def severityMapLookup (l : String) : Option IssueSeverity :=
  if l = "critical" then some .critical
  else if l = "high" then some .high
  else if l = "medium" then some .medium
  else if l = "low" then some .low
  else none

/-- `BaseAgent._parse_severity`: lowercase the input and look it up, with
`IssueSeverity.MEDIUM` as the `.get` default for unrecognized strings. -/
def parseSeverity (s : String) : IssueSeverity :=
  (severityMapLookup (pyLower s)).getD .medium

/-- `CodeIssue` dataclass from `base_agent.py`.  Confidence scores are
modelled as rationals (the Python floats appearing in this code are
decimal literals and are only constructed and compared, never computed
with). -/
structure CodeIssue where
  type : String
  line : Option Int
  severity : IssueSeverity
  description : String
  suggestion : Option String
  code_snippet : Option String
  fixed_code : Option String
  confidence_score : Option ℚ
deriving DecidableEq

/-- `FileAnalysisResult` dataclass from `base_agent.py`.  The
`processing_time` float is modelled as a natural number of time units. -/
structure FileAnalysisResult where
  file_path : String
  language : Option String
  issues : List CodeIssue
  processing_time : Nat
  cached : Bool
deriving DecidableEq

/-- One issue object of the decoded JSON payload, as consumed field by
field through `issue_data.get(...)` in each agent's
`parse_analysis_result`: every field may be absent. -/
structure IssueData where
  type : Option String
  line : Option Int
  severity : Option String
  description : Option String
  suggestion : Option String
  code_snippet : Option String
  fixed_code : Option String
  confidence_score : Option ℚ
deriving DecidableEq

/-- Outcome of tier 1 of result extraction: the regex search for a
curly-brace block followed by `json.loads`, as performed at the top of
every agent's `parse_analysis_result`.
`noJson` models `re.search` finding no block (the `else` branch);
`decodeError` models `json.loads` (or a subsequent key access) raising
one of the caught exceptions `json.JSONDecodeError` / `KeyError`;
`obj issues` models a successfully decoded object, carrying the value of
`result_data.get("issues", [])` (a missing key yields the empty list). -/
inductive JsonExtract where
  | noJson
  | decodeError
  | obj (issues : List IssueData)

/-- Abstraction of a raw LLM response string.  The agents consume the
string through exactly two lenses: the JSON tier (`jsonPart`) and, per
fallback pattern string, the list of `re.finditer` matches with their
captured line-number group (`none` when an alternation branch without a
group matched, so that `match.group(1)` is `None`). -/
structure LlmResponse where
  jsonPart : JsonExtract
  lineMatches : String → List (Option Nat)

/-- Builds a `CodeIssue` from one decoded JSON issue object, with the
agent-specific defaults for absent `type` and `severity` keys, exactly as
in each agent's `parse_analysis_result` loop. -/
def issueOfData (typeDefault : String) (severityDefault : String) (d : IssueData) : CodeIssue :=
  { type := d.type.getD typeDefault
    line := d.line
    severity := parseSeverity (d.severity.getD severityDefault)
    description := d.description.getD ""
    suggestion := d.suggestion
    code_snippet := d.code_snippet
    fixed_code := d.fixed_code
    confidence_score := d.confidence_score }

/-- `StyleAnalysisAgent.parse_analysis_result` issue construction:
defaults `type="style"`, `severity="medium"`. -/
def styleIssueOfData (d : IssueData) : CodeIssue := issueOfData "style" "medium" d

/-- `SecurityAnalysisAgent.parse_analysis_result` issue construction:
defaults `type="security"`, `severity="high"`. -/
def securityIssueOfData (d : IssueData) : CodeIssue := issueOfData "security" "high" d

/-- `BugAnalysisAgent.parse_analysis_result` issue construction:
defaults `type="bug"`, `severity="medium"`. -/
def bugIssueOfData (d : IssueData) : CodeIssue := issueOfData "bug" "medium" d

/-- `PerformanceAnalysisAgent.parse_analysis_result` issue construction:
defaults `type="performance"`, `severity="medium"`. -/
def performanceIssueOfData (d : IssueData) : CodeIssue := issueOfData "performance" "medium" d

/-- The pattern table of `StyleAnalysisAgent._parse_text_response`:
(regex pattern, description, severity). -/
def stylePatterns : List (String × String × String) :=
  [("line (\\d+).*too long", "Line length violation", "medium"),
   ("line (\\d+).*indentation", "Indentation issue", "low"),
   ("line (\\d+).*naming", "Naming convention violation", "medium"),
   ("line (\\d+).*whitespace", "Whitespace issue", "low")]

/-- The pattern table of `SecurityAnalysisAgent._parse_text_response`. -/
def securityPatterns : List (String × String × String) :=
  [("line (\\d+).*sql.*injection", "SQL Injection vulnerability", "critical"),
   ("line (\\d+).*xss|cross.*site.*script", "Cross-Site Scripting risk", "high"),
   ("line (\\d+).*hardcoded.*secret|api.*key", "Hardcoded credentials", "critical"),
   ("line (\\d+).*command.*injection", "Command injection vulnerability", "critical"),
   ("line (\\d+).*path.*traversal", "Path traversal vulnerability", "high"),
   ("line (\\d+).*insecure.*crypto", "Weak cryptographic implementation", "high"),
   ("line (\\d+).*unsafe.*deserializ", "Unsafe deserialization", "high"),
   ("line (\\d+).*auth.*bypass", "Authentication bypass", "critical"),
   ("line (\\d+).*access.*control", "Access control violation", "high"),
   ("line (\\d+).*information.*disclosure", "Information disclosure", "medium")]

/-- Generic form of the `_parse_text_response` fallback loop shared by the
agents: for each (pattern, description, severity) row, every regex match
yields a `CodeIssue` with the agent's fixed type, the row's severity, the
row's description suffixed with " (auto-detected)", and the agent's fixed
fallback confidence score. -/
def parseTextResponse (agentType : String) (conf : ℚ)
    (patterns : List (String × String × String)) (resp : LlmResponse) : List CodeIssue :=
  patterns.flatMap fun pds =>
    (resp.lineMatches pds.1).map fun ln =>
      { type := agentType
        line := ln.map (fun n => (n : Int))
        severity := parseSeverity pds.2.2
        description := pds.2.1 ++ " (auto-detected)"
        suggestion := none
        code_snippet := none
        fixed_code := none
        confidence_score := some conf }

/-- `StyleAnalysisAgent._parse_text_response`: fixed confidence 0.7. -/
def styleParseText (resp : LlmResponse) : List CodeIssue :=
  parseTextResponse "style" (7/10) stylePatterns resp

/-- `SecurityAnalysisAgent._parse_text_response`: fixed confidence 0.8. -/
def securityParseText (resp : LlmResponse) : List CodeIssue :=
  parseTextResponse "security" (8/10) securityPatterns resp

/-- Generic form of `parse_analysis_result` shared by all four agents:
tier 1 (structured JSON) first; on `noJson` (the `else` branch) or
`decodeError` (the `except (json.JSONDecodeError, KeyError)` branch) the
`_parse_text_response` fallback; the result never signals failure.
`language` and `processing_time` are placeholders set by the caller. -/
def parseAnalysisResult (mk : IssueData → CodeIssue)
    (fallback : LlmResponse → List CodeIssue)
    (resp : LlmResponse) (filePath : String) : FileAnalysisResult :=
  let issues :=
    match resp.jsonPart with
    | .obj ds => ds.map mk
    | .noJson => fallback resp
    | .decodeError => fallback resp
  { file_path := filePath
    language := none
    issues := issues
    processing_time := 0
    cached := false }

/-- `StyleAnalysisAgent.parse_analysis_result`. -/
def styleParseAnalysisResult (resp : LlmResponse) (filePath : String) : FileAnalysisResult :=
  parseAnalysisResult styleIssueOfData styleParseText resp filePath

/-- `SecurityAnalysisAgent.parse_analysis_result`. -/
def securityParseAnalysisResult (resp : LlmResponse) (filePath : String) : FileAnalysisResult :=
  parseAnalysisResult securityIssueOfData securityParseText resp filePath

/-- The `confidence_score` exemplar in the JSON response template of
`StyleAnalysisAgent.get_system_prompt` (0.85): the confidence the prompt
instructs structured extraction to carry. -/
def stylePromptExampleConfidence : ℚ := 85/100

/-- The `confidence_score` exemplar in the JSON response template of
`SecurityAnalysisAgent.get_system_prompt` (0.95). -/
def securityPromptExampleConfidence : ℚ := 95/100

/-! ## `BaseAgent.analyze_file` and its error handling -/

/-- The extension table of `BaseAgent._detect_language`. -/
def extensionMap : List (String × String) :=
  [(".py", "python"), (".js", "javascript"), (".ts", "typescript"),
   (".jsx", "javascript"), (".tsx", "typescript"), (".java", "java"),
   (".cpp", "cpp"), (".c", "c"), (".cs", "csharp"), (".go", "go"),
   (".rs", "rust"), (".php", "php"), (".rb", "ruby"), (".swift", "swift"),
   (".kt", "kotlin"), (".scala", "scala"), (".sh", "bash"), (".sql", "sql"),
   (".html", "html"), (".css", "css"), (".json", "json"), (".xml", "xml"),
   (".yaml", "yaml"), (".yml", "yaml")]

/-- `BaseAgent._detect_language`: first extension (in table order) that the
lowercased path ends with; "unknown" otherwise. -/
def detectLanguage (filePath : String) : String :=
  match extensionMap.find? (fun kv => (pyLower filePath).endsWith kv.1) with
  | some kv => kv.2
  | none => "unknown"

/-- The `timeout=60` (seconds) configured on the `ChatAnthropic` client in
`BaseAgent._create_llm`: the per-unit wall-clock bound on the upstream
call. -/
def llmTimeout : Nat := 60

/-- Outcome of the awaited `self.llm.ainvoke` call inside `analyze_file`:
either a response object, or an exception — `timeout` when the client's
60-second timeout fires, `exn` for any other failure of the call. -/
inductive LlmOutcome where
  | ok (resp : LlmResponse)
  | timeout
  | exn (msg : String)

/-- The `try`-block body of `BaseAgent.analyze_file`, which may raise:
an erroring LLM call propagates, and so does any exception raised by the
agent's `parse_analysis_result` (`parse` is `Except`-valued to model
that).  On success the parsed result gets `processing_time` and
`language` (the supplied language, or the detected one) filled in. -/
def analyzeFileBody (parse : LlmResponse → String → Except String FileAnalysisResult)
    (filePath : String) (language : Option String) (elapsed : Nat)
    (o : LlmOutcome) : Except String FileAnalysisResult :=
  match o with
  | .ok resp =>
    match parse resp filePath with
    | .ok r => .ok { r with processing_time := elapsed,
                            language := some (language.getD (detectLanguage filePath)) }
    | .error e => .error e
  | .timeout => .error "Request timed out"
  | .exn m => .error m

/-- `BaseAgent.analyze_file` as its caller sees it: the whole body is
wrapped in `try ... except Exception`, and the handler returns a
`FileAnalysisResult` with an empty issue list (and the caller-supplied
language) instead of propagating, so the call never raises. -/
def analyzeFile (parse : LlmResponse → String → Except String FileAnalysisResult)
    (filePath : String) (language : Option String) (elapsed : Nat)
    (o : LlmOutcome) : Except String FileAnalysisResult :=
  match analyzeFileBody parse filePath language elapsed o with
  | .ok r => .ok r
  | .error _ =>
    .ok { file_path := filePath
          language := language
          issues := []
          processing_time := elapsed
          cached := false }

/-! ## Task store and the single update contract (`app/celery_app.py`, `app/models.py`) -/

/-- `TaskStatus` enum from `app/models.py`. -/
inductive TaskStatus where
  | pending
  | processing
  | completed
  | failed
deriving DecidableEq

/-- The string `.value` of each `TaskStatus` member (`models.py`): these
are also the status strings `analyze_pr_task` passes to
`_update_task_status`. -/
def statusValue : TaskStatus → String
  | .pending => "pending"
  | .processing => "processing"
  | .completed => "completed"
  | .failed => "failed"

/-- Stand-in for the JSON `results` dictionary produced by the
coordinator and stored in the `results` column: an association list from
keys to opaque serialized values.  Python truthiness of the column is
`none`/empty ↦ falsy. -/
abbrev ResultsDict := List (String × String)

/-- The `AnalysisTask` row (`app/models.py`) restricted to the columns the
orchestration code reads or writes.  `processed_files` and `total_files`
have column default 0; timestamps are abstract time units. -/
structure AnalysisTask where
  task_id : String
  repo_url : String
  pr_number : Nat
  status : TaskStatus
  results : Option ResultsDict
  error_message : Option String
  started_at : Option Nat
  completed_at : Option Nat
  updated_at : Option Nat
  current_file : Option String
  processed_files : Nat
  total_files : Nat
deriving DecidableEq

/-- The keyword arguments of one `_update_task_status` call: `status` is
a mandatory positional parameter, every other field is an optional
keyword defaulting to `None` (= `none` = not supplied). -/
structure UpdateArgs where
  status : TaskStatus
  results : Option ResultsDict
  error_message : Option String
  started_at : Option Nat
  completed_at : Option Nat
  current_file : Option String
  processed_files : Option Nat
  total_files : Option Nat
deriving DecidableEq

/-- Writes a field only when the caller supplied it (`if x is not None:
task.x = x` in `_update_task_status`). -/
def writeIfSupplied {α : Type} (supplied : Option α) (old : α) : α :=
  match supplied with
  | some v => v
  | none => old

/-- The field assignments of `_update_task_status` once the row is found:
`status` and `updated_at` are always written; every optional field is
written only when supplied. -/
def applyUpdate (t : AnalysisTask) (now : Nat) (a : UpdateArgs) : AnalysisTask :=
  { t with
    status := a.status
    updated_at := some now
    results := writeIfSupplied (a.results.map some) t.results
    error_message := writeIfSupplied (a.error_message.map some) t.error_message
    started_at := writeIfSupplied (a.started_at.map some) t.started_at
    completed_at := writeIfSupplied (a.completed_at.map some) t.completed_at
    current_file := writeIfSupplied (a.current_file.map some) t.current_file
    processed_files := writeIfSupplied a.processed_files t.processed_files
    total_files := writeIfSupplied a.total_files t.total_files }

/-- The persistence collaborator as `_update_task_status` sees it: the
queried row (if any) and whether the database session works at all. -/
structure Store where
  available : Bool
  task : Option AnalysisTask
deriving DecidableEq

/-- The `try`-block body of `_update_task_status`: raises
`StoreUnavailable` when the session/commit fails; otherwise updates the
row when found (a missing row is only logged as a warning). -/
def updateTaskStatusBody (s : Store) (now : Nat) (a : UpdateArgs) : Except String Store :=
  if s.available then
    match s.task with
    | some t => .ok ⟨true, some (applyUpdate t now a)⟩
    | none => .ok s
  else
    .error "StoreUnavailable"

/-- `_update_task_status` as its callers see it: the whole body is inside
`try ... except Exception as e: logger.error(...)`, so a persistence
failure is logged and the function returns normally with no write
performed. -/
def updateTaskStatusExc (s : Store) (now : Nat) (a : UpdateArgs) : Except String Store :=
  match updateTaskStatusBody s now a with
  | .ok s2 => .ok s2
  | .error _ => .ok s

/-- The store after one `_update_task_status` call (never fails). -/
def updateTaskStatus (s : Store) (now : Nat) (a : UpdateArgs) : Store :=
  match updateTaskStatusExc s now a with
  | .ok s2 => s2
  | .error _ => s

/-! ## `analyze_pr_task` and its Celery retry policy -/

/-- The argument bundles of the four `_update_task_status` call sites in
`analyze_pr_task`: the start-of-attempt update. -/
def startArgs (now : Nat) : UpdateArgs :=
  ⟨.processing, none, none, some now, none, none, none, none⟩

/-- One invocation of the `progress_callback` closure: the coordinator's
keyword arguments, each possibly absent (`kwargs.get` yields `None`).
The `status` keyword defaults to "processing"; the coordinator source is
the external collaborator, so progress updates are modelled with that
default. -/
structure ProgressReport where
  current_file : Option String
  processed_files : Option Nat
  total_files : Option Nat
deriving DecidableEq

/-- The `progress_callback` update arguments. -/
def progressArgs (r : ProgressReport) : UpdateArgs :=
  ⟨.processing, none, none, none, none, r.current_file, r.processed_files, r.total_files⟩

/-- The completed-terminal update arguments. -/
def completedArgs (res : ResultsDict) (now : Nat) : UpdateArgs :=
  ⟨.completed, some res, none, none, some now, none, none, none⟩

/-- The failed-terminal update arguments (the `except` block). -/
def failedArgs (msg : String) (now : Nat) : UpdateArgs :=
  ⟨.failed, none, some msg, none, some now, none, none, none⟩

/-- One execution attempt of the task body, abstracting
`coordinator.analyze_pull_request`: the progress reports it emits in
order, then either the aggregated results or the exception message it
ends with. -/
structure Attempt where
  reports : List ProgressReport
  outcome : Except String ResultsDict

/-- Applies the progress updates of an attempt in order, returning the
store after each update and the final store. -/
def applyReports (s : Store) (now : Nat) : List ProgressReport → List Store × Store
  | [] => ([], s)
  | r :: rs =>
    let s1 := updateTaskStatus s now (progressArgs r)
    let p := applyReports s1 now rs
    (s1 :: p.1, p.2)

/-- The stores produced by one run of the `analyze_pr_task` body. -/
structure AttemptRun where
  trace : List Store
  final : Store
  outcome : Except String ResultsDict

/-- One run of the `analyze_pr_task` body: mark processing (with
`started_at`), apply the coordinator's progress updates, then either the
completed update (success path, `results` + `completed_at`) or the failed
update (the `except` block, `error_message` + `completed_at`). -/
def runAttempt (s : Store) (now : Nat) (att : Attempt) : AttemptRun :=
  let s1 := updateTaskStatus s now (startArgs now)
  let p := applyReports s1 now att.reports
  match att.outcome with
  | .ok res =>
    let s3 := updateTaskStatus p.2 now (completedArgs res now)
    ⟨s1 :: p.1 ++ [s3], s3, .ok res⟩
  | .error msg =>
    let s3 := updateTaskStatus p.2 now (failedArgs msg now)
    ⟨s1 :: p.1 ++ [s3], s3, .error msg⟩

/-- `max_retries=3` from the `self.retry(...)` call in `analyze_pr_task`:
the bound on retries after the initial execution. -/
def maxRetries : Nat := 3

/-- `countdown=60` from the same call: the fixed backoff before each
retry. -/
def retryCountdown : Nat := 60

/-- Everything observable about one job execution under the Celery retry
policy: the store after every update in order, the final store, the store
at the end of each attempt, how many attempts ran, the backoff before
each retry, and whether the failure became permanent (the final
`self.retry` call re-raising once `max_retries` is exhausted). -/
structure RunResult where
  trace : List Store
  final : Store
  attemptEnds : List Store
  attemptsMade : Nat
  backoffs : List Nat
  permanentFailure : Bool

/-- The Celery retry driver around `analyze_pr_task`: attempt `k` runs the
body; on success the task returns; on failure the body has already
written the failed update, and `self.retry(exc, countdown=60,
max_retries=3)` schedules attempt `k+1` while `k < max_retries`, or
re-raises permanently when the budget is exhausted.  `fuel` is
`maxRetries + 1 - k` at every call, so the base case is unreachable. -/
def runWithRetries (attempts : Nat → Attempt) : Nat → Nat → Store → RunResult
  | 0, _, s => ⟨[], s, [], 0, [], true⟩
  | fuel + 1, k, s =>
    let ar := runAttempt s k (attempts k)
    match ar.outcome with
    | .ok _ => ⟨ar.trace, ar.final, [ar.final], 1, [], false⟩
    | .error _ =>
      if k < maxRetries then
        let rest := runWithRetries attempts fuel (k + 1) ar.final
        ⟨ar.trace ++ rest.trace, rest.final, ar.final :: rest.attemptEnds,
         rest.attemptsMade + 1, retryCountdown :: rest.backoffs, rest.permanentFailure⟩
      else
        ⟨ar.trace, ar.final, [ar.final], 1, [], true⟩

/-- The row `analyze_pr` (`main.py`) creates at submission: status
PENDING, all nullable columns null, counters at their column default 0. -/
def submittedTask (tid repo : String) (pr : Nat) : AnalysisTask :=
  ⟨tid, repo, pr, .pending, none, none, none, none, none, none, 0, 0⟩

/-- One whole job execution: the freshly submitted row, run under the
retry policy (attempt indices double as coarse timestamps). -/
def runJob (avail : Bool) (tid repo : String) (pr : Nat) (attempts : Nat → Attempt) : RunResult :=
  runWithRetries attempts (maxRetries + 1) 0 ⟨avail, some (submittedTask tid repo pr)⟩

/-! ## Status and results endpoints (`app/main.py`) -/

/-- The `progress_percentage` computation in `get_task_status`:
initialized to 0 and overwritten by `(processed_files / total_files) *
100` only when `total_files > 0`, so no division by zero can occur. -/
def progressPercentage (t : AnalysisTask) : ℚ :=
  if t.total_files > 0 then ((t.processed_files : ℚ) / (t.total_files : ℚ)) * 100 else 0

/-- `_get_current_stage` from `main.py`. -/
def currentStage : TaskStatus → String
  | .pending => "Queued for processing"
  | .processing => "Analyzing code"
  | .completed => "Analysis complete"
  | .failed => "Analysis failed"

/-- The `TaskStatusResponse` fields computed by `get_task_status`
(the `round(·, 2)` on the percentage and the human-readable
`_estimate_completion_time` string are response formatting and are
elided; `estimate_computed` records whether the estimation branch was
taken). -/
structure TaskStatusView where
  task_id : String
  status : TaskStatus
  progress_percentage : ℚ
  current_stage : String
  files_processed : Nat
  files_total : Nat
  current_file : Option String
  estimate_computed : Bool
  error_message : Option String
deriving DecidableEq

/-- `get_task_status`: 404 for an unknown task id, otherwise the status
snapshot; no other failure is possible for an existing row. -/
def getTaskStatus (tid : String) (task : Option AnalysisTask) :
    Except (Nat × String) TaskStatusView :=
  match task with
  | none => .error (404, "Task " ++ tid ++ " not found")
  | some t =>
    .ok ⟨t.task_id, t.status, progressPercentage t, currentStage t.status,
         t.processed_files, t.total_files, t.current_file,
         (t.status == .processing) && t.started_at.isSome, t.error_message⟩

/-- Python truthiness of the `results` column as tested by
`if not task.results:` — `None` and the empty container are falsy. -/
def resultsFalsy : Option ResultsDict → Bool
  | none => true
  | some r => r.isEmpty

/-- The `AnalysisResults` fields computed by `get_analysis_results`;
`files`, `summary`, `metadata` hold the serialized values looked up from
the results dictionary ("" standing for the empty-container default). -/
structure AnalysisResultsView where
  task_id : String
  status : TaskStatus
  repository : String
  pr_number : Nat
  files : String
  summary : String
  metadata : String
  completed_at : Option Nat
deriving DecidableEq

/-- Lookup of one key of the results dictionary with a default, as in
`task.results.get("files", [])`. -/
def resultsGetD (r : ResultsDict) (k : String) : String :=
  match r.lookup k with
  | some v => v
  | none => ""

/-- `get_analysis_results`: 404 for an unknown task id; 400 when the task
is not COMPLETED; 404 again when the task is COMPLETED but its `results`
column is falsy; otherwise the structured results. -/
def getAnalysisResults (tid : String) (task : Option AnalysisTask) :
    Except (Nat × String) AnalysisResultsView :=
  match task with
  | none => .error (404, "Task " ++ tid ++ " not found")
  | some t =>
    if t.status ≠ .completed then
      .error (400, "Task " ++ tid ++ " is not completed. Current status: " ++ statusValue t.status)
    else if resultsFalsy t.results then
      .error (404, "No results found for task " ++ tid)
    else
      match t.results with
      | some r =>
        .ok ⟨t.task_id, t.status, t.repo_url, t.pr_number,
             resultsGetD r "files", resultsGetD r "summary", resultsGetD r "metadata",
             t.completed_at⟩
      | none => .error (404, "No results found for task " ++ tid)

/-! ## Invariants and concrete scenario inputs -/

/-- A store that is reachable while the job runs: the session works and
the submitted row exists. -/
def GoodStore (s : Store) : Prop := s.available = true ∧ s.task.isSome

/-- The spec's Job invariant (§3), stated on one persisted row:
`completedUnits ≤ totalUnits`, `results` non-null iff COMPLETED,
`errorMessage` non-null iff FAILED.  The `errorMessage` direction that
the code actually maintains is only `FAILED → non-null`; see the C2
theorems. -/
def TaskInv (t : AnalysisTask) : Prop :=
  t.processed_files ≤ t.total_files ∧
  (t.results.isSome ↔ t.status = .completed) ∧
  (t.status = .failed → t.error_message.isSome)

/-- `TaskInv` lifted to a store snapshot. -/
def StoreInv (s : Store) : Prop := ∀ t, s.task = some t → TaskInv t

/-- Strengthened state between attempts: no results recorded yet, the
counters consistent, the status not terminal-successful, and an error
message present whenever the status is FAILED. -/
def PreTask (t : AnalysisTask) : Prop :=
  t.results = none ∧ t.processed_files ≤ t.total_files ∧
  t.status ≠ .completed ∧ (t.status = .failed → t.error_message.isSome)

/-- `PreTask` lifted to a store snapshot. -/
def PreStore (s : Store) : Prop := ∀ t, s.task = some t → PreTask t

/-- A progress report that carries both counters with
`processed ≤ total` — the §4.4 contract of the (external) coordinator. -/
def goodReportB (r : ProgressReport) : Bool :=
  match r.processed_files, r.total_files with
  | some p, some q => decide (p ≤ q)
  | _, _ => false

/-- A job whose every attempt raises, with arbitrary reports and
messages per attempt — the scenario of the spec's retry-bound property. -/
def allFailRun (tid repo : String) (pr : Nat)
    (reps : Nat → List ProgressReport) (msgs : Nat → String) : RunResult :=
  runJob true tid repo pr fun k => ⟨reps k, .error (msgs k)⟩

/-- Concrete all-failing attempts: no progress reports, message "boom". -/
def allFailAttempts : Nat → Attempt := fun _ => ⟨[], .error "boom"⟩

/-- Concrete attempts for the C2 counterexample: the first attempt raises
"boom", the second succeeds. -/
def c2CexAttempts : Nat → Attempt :=
  fun k => if k = 0 then ⟨[], .error "boom"⟩ else ⟨[], .ok [("files", "x")]⟩

/-- Concrete attempts for the C2 witness: one well-formed progress report
then success. -/
def c2WitnessAttempts : Nat → Attempt :=
  fun _ => ⟨[⟨some "a.py", some 1, some 2⟩], .ok [("files", "x")]⟩

/-- Concrete task row for the C7 witness: mid-processing with results of
a previous life, to observe clobbering (or its absence). -/
def tC7 : AnalysisTask :=
  ⟨"j7", "r", 1, .processing, some [("files", "x")], some "old", some 1, some 2, some 2, some "a.py", 3, 9⟩

/-- Concrete task row for the C8 counterexample: COMPLETED but with a
null `results` column. -/
def tC8 : AnalysisTask :=
  ⟨"j8", "r", 1, .completed, none, none, some 1, some 9, some 9, none, 8, 8⟩

/-- Concrete task row for the C8 witness: COMPLETED with results
present. -/
def tW8 : AnalysisTask :=
  ⟨"w8", "r", 2, .completed, some [("files", "x"), ("summary", "s")], none, some 1, some 9, some 9, none, 8, 8⟩

/-- Concrete response for the C5 witness: tier 1 fails with a JSON decode
error; the fallback scan matches the first style pattern once at line 12
and nothing else. -/
def respC5 : LlmResponse :=
  ⟨.decodeError, fun p => if p = "line (\\d+).*too long" then [some 12] else []⟩

/-! ## Helper lemmas -/

/-- A lowercased severity string outside the recognized table maps to
MEDIUM. -/
lemma parseSeverity_not_mem (s : String)
    (h : pyLower s ∉ (["critical", "high", "medium", "low"] : List String)) :
    parseSeverity s = .medium := by
  simp only [List.mem_cons, List.mem_singleton, not_or] at h
  obtain ⟨h1, h2, h3, h4⟩ := h
  unfold parseSeverity severityMapLookup
  simp [h1, h2, h3, h4]

/-- Every fallback-extracted issue carries the agent's fixed confidence
and type. -/
lemma parseTextResponse_fields (ty : String) (conf : ℚ)
    (pats : List (String × String × String)) (resp : LlmResponse) :
    ∀ i ∈ parseTextResponse ty conf pats resp,
      i.confidence_score = some conf ∧ i.type = ty := by
  intro i hi
  unfold parseTextResponse at hi
  simp only [List.mem_flatMap, List.mem_map] at hi
  obtain ⟨pds, _, ln, _, rfl⟩ := hi
  exact ⟨rfl, rfl⟩

/-! ## Claim theorems -/

/-- C6 (confirmed): when the upstream JSON omits the `severity` field,
the constructed issue's severity is the agent's type-specific default:
medium for style, high for security, medium for bug and performance —
and the `severity` field, being an enum, is never left unset. -/
theorem C6_severity_defaulting :
    ∀ d : IssueData, d.severity = none →
      (styleIssueOfData d).severity = .medium ∧
      (securityIssueOfData d).severity = .high ∧
      (bugIssueOfData d).severity = .medium ∧
      (performanceIssueOfData d).severity = .medium := by
  intro d h
  refine ⟨?_, ?_, ?_, ?_⟩ <;>
    simp [styleIssueOfData, securityIssueOfData, bugIssueOfData,
          performanceIssueOfData, issueOfData, h] <;>
    decide

/-- C6 witness: the defaults at the all-absent issue object. -/
theorem C6_severity_defaulting_witness :
    (styleIssueOfData ⟨none, none, none, none, none, none, none, none⟩).severity = .medium ∧
    (securityIssueOfData ⟨none, none, none, none, none, none, none, none⟩).severity = .high ∧
    (bugIssueOfData ⟨none, none, none, none, none, none, none, none⟩).severity = .medium ∧
    (performanceIssueOfData ⟨none, none, none, none, none, none, none, none⟩).severity = .medium :=
  C6_severity_defaulting ⟨none, none, none, none, none, none, none, none⟩ rfl

/-- C10 (confirmed): severity parsing is total and case-insensitive —
it depends only on the lowercased string, any string outside the four
recognized severities maps to MEDIUM, and in particular a security issue
whose `severity` field is present but unrecognized gets MEDIUM, not the
security agent's omitted-field default HIGH. -/
theorem C10_parse_severity_total :
    (∀ s₁ s₂ : String, pyLower s₁ = pyLower s₂ → parseSeverity s₁ = parseSeverity s₂) ∧
    (∀ s : String, pyLower s ∉ (["critical", "high", "medium", "low"] : List String) →
      parseSeverity s = .medium) ∧
    (∀ (d : IssueData) (s : String), d.severity = some s →
      pyLower s ∉ (["critical", "high", "medium", "low"] : List String) →
      (securityIssueOfData d).severity = .medium) := by
  refine ⟨?_, ?_, ?_⟩
  · intro s₁ s₂ h
    unfold parseSeverity
    rw [h]
  · exact parseSeverity_not_mem
  · intro d s hd h
    have : (securityIssueOfData d).severity = parseSeverity s := by
      simp [securityIssueOfData, issueOfData, hd]
    rw [this]
    exact parseSeverity_not_mem s h

/-- C10 witness: "HIGH" parses like "high"; "Blocker" maps to MEDIUM,
also as a present severity of a security issue. -/
theorem C10_parse_severity_total_witness :
    parseSeverity "HIGH" = parseSeverity "high" ∧
    parseSeverity "Blocker" = .medium ∧
    (securityIssueOfData ⟨none, none, some "Blocker", none, none, none, none, none⟩).severity
      = .medium :=
  ⟨C10_parse_severity_total.1 "HIGH" "high" (by decide),
   C10_parse_severity_total.2.1 "Blocker" (by decide),
   C10_parse_severity_total.2.2 ⟨none, none, some "Blocker", none, none, none, none, none⟩
     "Blocker" rfl (by decide)⟩

/-- C9 (confirmed): for every existing task, the status query succeeds
(no division-by-zero failure is possible) and its progress percentage is
0 when `total_files = 0` and `(processed_files / total_files) * 100`
otherwise. -/
theorem C9_progress_total :
    ∀ (tid : String) (t : AnalysisTask),
      ∃ v, getTaskStatus tid (some t) = .ok v ∧
        v.progress_percentage =
          (if t.total_files = 0 then 0
           else ((t.processed_files : ℚ) / (t.total_files : ℚ)) * 100) ∧
        (t.total_files = 0 → v.progress_percentage = 0) := by
  intro tid t
  refine ⟨_, rfl, ?_, ?_⟩
  · by_cases h : t.total_files = 0
    · simp [progressPercentage, h]
    · simp [progressPercentage, h, Nat.pos_of_ne_zero h]
  · intro h
    simp [progressPercentage, h]

/-- C9 witness: a fresh task with `total_files = 0` reports percentage 0
through a successful status query. -/
theorem C9_progress_total_witness :
    ((getTaskStatus "j" (some (submittedTask "j" "r" 1))).toOption.map
      TaskStatusView.progress_percentage) = some 0 := by
  obtain ⟨v, hv, _, hzero⟩ := C9_progress_total "j" (submittedTask "j" "r" 1)
  rw [hv]
  simpa [Except.toOption] using hzero rfl

/-- C4 (confirmed): `analyze_file` never raises — for every LLM-call
outcome (including malformed output making the agent's parser raise) it
returns a result; the upstream call carries the bounded 60-second
wall-clock timeout configured in `_create_llm`; and on timeout the
caller receives a result with an empty issue list (a soft failure)
although the timeout did raise inside the body. -/
theorem C4_analyze_file_total :
    ∀ (parse : LlmResponse → String → Except String FileAnalysisResult)
      (fp : String) (lang : Option String) (elapsed : Nat) (o : LlmOutcome),
      (∃ r, analyzeFile parse fp lang elapsed o = .ok r) ∧
      analyzeFileBody parse fp lang elapsed .timeout = .error "Request timed out" ∧
      analyzeFile parse fp lang elapsed .timeout = .ok ⟨fp, lang, [], elapsed, false⟩ ∧
      llmTimeout = 60 := by
  intro parse fp lang elapsed o
  refine ⟨?_, rfl, rfl, rfl⟩
  unfold analyzeFile
  cases analyzeFileBody parse fp lang elapsed o <;> exact ⟨_, rfl⟩

/-- C3 counterexample (claim false on the code): with the persistence
layer down, the update body raises `StoreUnavailable`, but the
caller-visible `_update_task_status` returns normally — the error is
swallowed by its catch-all handler and no write happens, so nothing is
surfaced to the caller. -/
theorem C3_counterexample :
    updateTaskStatusBody ⟨false, some (submittedTask "j" "r" 1)⟩ 0 (startArgs 0) =
      .error "StoreUnavailable" ∧
    updateTaskStatusExc ⟨false, some (submittedTask "j" "r" 1)⟩ 0 (startArgs 0) =
      .ok ⟨false, some (submittedTask "j" "r" 1)⟩ :=
  ⟨rfl, rfl⟩

/-- C3 amended (proved): a persistence failure during a task-state
update raises inside the update body, but the update as its callers see
it never propagates any error: it returns normally, leaving the store
unchanged, and execution continues as if progress had been recorded. -/
theorem C3_amended_swallowed :
    ∀ (s : Store) (now : Nat) (a : UpdateArgs),
      (∃ s2, updateTaskStatusExc s now a = .ok s2) ∧
      (s.available = false →
        updateTaskStatusBody s now a = .error "StoreUnavailable" ∧
        updateTaskStatusExc s now a = .ok s) := by
  intro s now a
  constructor
  · unfold updateTaskStatusExc
    cases updateTaskStatusBody s now a <;> exact ⟨_, rfl⟩
  · intro h
    constructor <;> simp [updateTaskStatusExc, updateTaskStatusBody, h]

/-- C3 amended witness: the swallowed failure at a concrete unavailable
store. -/
theorem C3_amended_swallowed_witness :
    updateTaskStatusExc ⟨false, none⟩ 0 (startArgs 0) = .ok ⟨false, none⟩ :=
  ((C3_amended_swallowed ⟨false, none⟩ 0 (startArgs 0)).2 rfl).2

/-- C7 (confirmed): the single update contract writes `status` (always
supplied) and otherwise only the fields the caller supplied, leaving
unsupplied fields untouched; consequently a progress update never
clobbers the terminal fields (`results`, `error_message`,
`completed_at`) and a terminal update (completed or failed) never
clobbers the progress fields (`processed_files`, `total_files`,
`current_file`). -/
theorem C7_update_frame :
    ∀ (t : AnalysisTask) (now : Nat) (a : UpdateArgs) (r : ProgressReport)
      (res : ResultsDict) (msg : String),
      (applyUpdate t now a).status = a.status ∧
      (a.results = none → (applyUpdate t now a).results = t.results) ∧
      (a.error_message = none → (applyUpdate t now a).error_message = t.error_message) ∧
      (a.started_at = none → (applyUpdate t now a).started_at = t.started_at) ∧
      (a.completed_at = none → (applyUpdate t now a).completed_at = t.completed_at) ∧
      (a.current_file = none → (applyUpdate t now a).current_file = t.current_file) ∧
      (a.processed_files = none →
        (applyUpdate t now a).processed_files = t.processed_files) ∧
      (a.total_files = none → (applyUpdate t now a).total_files = t.total_files) ∧
      (∀ x, a.results = some x → (applyUpdate t now a).results = some x) ∧
      (∀ x, a.error_message = some x → (applyUpdate t now a).error_message = some x) ∧
      ((applyUpdate t now (progressArgs r)).results = t.results ∧
       (applyUpdate t now (progressArgs r)).error_message = t.error_message ∧
       (applyUpdate t now (progressArgs r)).completed_at = t.completed_at) ∧
      ((applyUpdate t now (completedArgs res now)).processed_files = t.processed_files ∧
       (applyUpdate t now (completedArgs res now)).total_files = t.total_files ∧
       (applyUpdate t now (completedArgs res now)).current_file = t.current_file) ∧
      ((applyUpdate t now (failedArgs msg now)).processed_files = t.processed_files ∧
       (applyUpdate t now (failedArgs msg now)).total_files = t.total_files ∧
       (applyUpdate t now (failedArgs msg now)).current_file = t.current_file) := by
  intro t now a r res msg
  and_intros <;>
    first
      | (intro h; simp [applyUpdate, writeIfSupplied, h])
      | (intro x h; simp [applyUpdate, writeIfSupplied, h])
      | simp [applyUpdate, writeIfSupplied, progressArgs, completedArgs, failedArgs]

/-- C7 witness: on a concrete mid-processing row, a progress update
leaves the previously recorded results and error message in place, and
the two terminal updates leave the counters and current file in place. -/
theorem C7_update_frame_witness :
    (applyUpdate tC7 5 (progressArgs ⟨some "b.py", some 4, some 9⟩)).results = tC7.results ∧
    (applyUpdate tC7 5 (completedArgs [("files", "y")] 5)).processed_files
      = tC7.processed_files ∧
    (applyUpdate tC7 5 (failedArgs "m" 5)).current_file = tC7.current_file := by
  obtain ⟨-, -, -, -, -, -, -, -, -, -, hp, hc, hf⟩ :=
    C7_update_frame tC7 5 (startArgs 5) ⟨some "b.py", some 4, some 9⟩ [("files", "y")] "m"
  exact ⟨hp.1, hc.1, hf.2.2⟩

/-- C5 (confirmed): result extraction is two-tier — the structured JSON
tier is consulted first and, when it succeeds, alone; when it fails (no
JSON block, or a decode error) the pattern-rule fallback supplies the
issues, each with the agent's fixed confidence (0.7 style, 0.8
security), lower than the confidences the agents' own prompt templates
instruct structured extraction to carry (0.85 style, 0.95 security); and
when both tiers yield nothing the issue list is empty rather than the
unit failing. -/
theorem C5_two_tier_extraction :
    ∀ (resp : LlmResponse) (fp : String),
      (∀ ds, resp.jsonPart = .obj ds →
        (styleParseAnalysisResult resp fp).issues = ds.map styleIssueOfData ∧
        (securityParseAnalysisResult resp fp).issues = ds.map securityIssueOfData) ∧
      (resp.jsonPart = .noJson ∨ resp.jsonPart = .decodeError →
        (styleParseAnalysisResult resp fp).issues = styleParseText resp ∧
        (securityParseAnalysisResult resp fp).issues = securityParseText resp) ∧
      (∀ i ∈ styleParseText resp, i.confidence_score = some (7/10)) ∧
      (∀ i ∈ securityParseText resp, i.confidence_score = some (8/10)) ∧
      (7 : ℚ)/10 < stylePromptExampleConfidence ∧
      (8 : ℚ)/10 < securityPromptExampleConfidence ∧
      ((resp.jsonPart = .noJson ∨ resp.jsonPart = .decodeError) → styleParseText resp = [] →
        (styleParseAnalysisResult resp fp).issues = []) ∧
      ((resp.jsonPart = .noJson ∨ resp.jsonPart = .decodeError) →
        securityParseText resp = [] → (securityParseAnalysisResult resp fp).issues = []) := by
  intro resp fp
  have hdisp : ∀ h : resp.jsonPart = .noJson ∨ resp.jsonPart = .decodeError,
      (styleParseAnalysisResult resp fp).issues = styleParseText resp ∧
      (securityParseAnalysisResult resp fp).issues = securityParseText resp := by
    rintro (h | h) <;>
      exact ⟨by simp [styleParseAnalysisResult, parseAnalysisResult, h],
             by simp [securityParseAnalysisResult, parseAnalysisResult, h]⟩
  refine ⟨?_, hdisp, ?_, ?_, by norm_num [stylePromptExampleConfidence],
          by norm_num [securityPromptExampleConfidence], ?_, ?_⟩
  · intro ds h
    exact ⟨by simp [styleParseAnalysisResult, parseAnalysisResult, h],
           by simp [securityParseAnalysisResult, parseAnalysisResult, h]⟩
  · intro i hi
    exact (parseTextResponse_fields "style" (7/10) stylePatterns resp i hi).1
  · intro i hi
    exact (parseTextResponse_fields "security" (8/10) securityPatterns resp i hi).1
  · intro h he
    rw [(hdisp h).1, he]
  · intro h he
    rw [(hdisp h).2, he]

/-- C5 witness: on a response whose JSON tier raises a decode error and
whose fallback scan matches one style rule, the style issues are exactly
the fallback issues and the fixed fallback confidence sits below the
prompt's structured exemplar. -/
theorem C5_two_tier_extraction_witness :
    (styleParseAnalysisResult respC5 "a.py").issues = styleParseText respC5 ∧
    (securityParseAnalysisResult respC5 "a.py").issues = securityParseText respC5 ∧
    (7 : ℚ)/10 < stylePromptExampleConfidence :=
  ⟨((C5_two_tier_extraction respC5 "a.py").2.1 (Or.inr rfl)).1,
   ((C5_two_tier_extraction respC5 "a.py").2.1 (Or.inr rfl)).2,
   (C5_two_tier_extraction respC5 "a.py").2.2.2.2.1⟩

/-- C8 counterexample (claim false on the code): a COMPLETED task whose
`results` column is null does not have its results returned —
`get_analysis_results` fails, and with the 404 NotFound status rather
than NotReady, so "fails with NotFound only for unknown jobIDs, returns
the aggregated results whenever status is COMPLETED" is violated. -/
theorem C8_counterexample :
    tC8.status = .completed ∧
    getAnalysisResults "j8" (some tC8) =
      .error (404, "No results found for task j8") :=
  ⟨rfl, rfl⟩

/-- C8 amended (proved): `get_analysis_results` fails 404 NotFound for an
unknown jobID, 400 NotReady when the job exists with status ≠ COMPLETED,
additionally fails 404 when the job is COMPLETED but its `results` column
is null or empty, and returns the structured results only when the job is
COMPLETED with non-empty results. -/
theorem C8_amended_get_results :
    ∀ (tid : String) (t : AnalysisTask),
      getAnalysisResults tid none = .error (404, "Task " ++ tid ++ " not found") ∧
      (t.status ≠ .completed →
        getAnalysisResults tid (some t) =
          .error (400, "Task " ++ tid ++ " is not completed. Current status: "
                        ++ statusValue t.status)) ∧
      (t.status = .completed → resultsFalsy t.results = true →
        getAnalysisResults tid (some t) =
          .error (404, "No results found for task " ++ tid)) ∧
      (t.status = .completed → resultsFalsy t.results = false →
        ∃ v, getAnalysisResults tid (some t) = .ok v ∧
          v.task_id = t.task_id ∧ v.status = .completed) := by
  intro tid t
  refine ⟨rfl, ?_, ?_, ?_⟩
  · intro h
    simp [getAnalysisResults, h]
  · intro h hf
    simp [getAnalysisResults, h, hf]
  · intro h hf
    match hr : t.results with
    | none => rw [hr] at hf; simp [resultsFalsy] at hf
    | some r =>
      refine ⟨⟨t.task_id, t.status, t.repo_url, t.pr_number, resultsGetD r "files",
              resultsGetD r "summary", resultsGetD r "metadata", t.completed_at⟩,
              ?_, rfl, h⟩
      rw [hr] at hf
      simp [getAnalysisResults, h, hf, hr]

/-- C8 amended witness: a COMPLETED task with non-empty results gets an
ok response. -/
theorem C8_amended_get_results_witness :
    (getAnalysisResults "w8" (some tW8)).isOk = true := by
  obtain ⟨v, hv, -, -⟩ := (C8_amended_get_results "w8" tW8).2.2.2 rfl rfl
  rw [hv]
  rfl

/-! ## Lemmas about the update contract and the retry loop -/

/-- One `_update_task_status` call either leaves the store untouched
(session down, or row missing) or rewrites the present row with
`applyUpdate`. -/
lemma updateTaskStatus_cases (s : Store) (now : Nat) (a : UpdateArgs) :
    updateTaskStatus s now a = s ∨
    ∃ t, s.task = some t ∧ s.available = true ∧
      updateTaskStatus s now a = ⟨true, some (applyUpdate t now a)⟩ := by
  obtain ⟨av, tk⟩ := s
  cases av
  · exact Or.inl rfl
  · cases tk
    · exact Or.inl rfl
    · exact Or.inr ⟨_, rfl, rfl, rfl⟩

/-- Updates keep the session flag and the row's presence. -/
lemma updateTaskStatus_good (s : Store) (now : Nat) (a : UpdateArgs)
    (h : GoodStore s) : GoodStore (updateTaskStatus s now a) := by
  rcases updateTaskStatus_cases s now a with he | ⟨t, -, -, he⟩
  · rw [he]; exact h
  · rw [he]; exact ⟨rfl, rfl⟩

/-- Progress updates keep the session flag and the row's presence. -/
lemma applyReports_good (now : Nat) :
    ∀ (rs : List ProgressReport) (s : Store), GoodStore s →
      GoodStore (applyReports s now rs).2 := by
  intro rs
  induction rs with
  | nil => intro s hs; exact hs
  | cons r rs ih =>
    intro s hs
    exact ih _ (updateTaskStatus_good s now (progressArgs r) hs)

/-- An attempt keeps the session flag and the row's presence. -/
lemma runAttempt_good (s : Store) (now : Nat) (att : Attempt)
    (h : GoodStore s) : GoodStore (runAttempt s now att).final := by
  obtain ⟨reports, outcome⟩ := att
  have h1 := updateTaskStatus_good s now (startArgs now) h
  have h2 := applyReports_good now reports _ h1
  cases outcome <;> simpa [runAttempt] using updateTaskStatus_good _ now _ h2

/-- The body run propagates the coordinator's outcome unchanged. -/
lemma runAttempt_outcome (s : Store) (now : Nat) (att : Attempt) :
    (runAttempt s now att).outcome = att.outcome := by
  obtain ⟨reports, outcome⟩ := att
  cases outcome <;> rfl

/-- After a failing attempt from a live store, the row ends marked FAILED
with the attempt's error message recorded. -/
lemma runAttempt_failed_final (s : Store) (now : Nat) (att : Attempt) (m : String)
    (ho : att.outcome = .error m) (h : GoodStore s) :
    ∃ u, (runAttempt s now att).final.task = some u ∧
      u.status = .failed ∧ u.error_message = some m := by
  obtain ⟨reports, outcome⟩ := att
  cases outcome with
  | ok res => cases ho
  | error msg =>
    cases ho
    have h1 := updateTaskStatus_good s now (startArgs now) h
    have h2 := applyReports_good now reports _ h1
    obtain ⟨hav, hsome⟩ := h2
    obtain ⟨w, hw⟩ := Option.isSome_iff_exists.mp hsome
    set s2 := (applyReports (updateTaskStatus s now (startArgs now)) now reports).2 with hs2
    have hlit : s2 = ⟨true, some w⟩ := by
      obtain ⟨av2, tk2⟩ := s2
      simp only at hav hw
      rw [hav, hw]
    refine ⟨applyUpdate w now (failedArgs m now), ?_, ?_, ?_⟩
    · simp only [runAttempt, ← hs2, hlit]
      rfl
    · rfl
    · rfl

/-- A good report writes both counters, consistently. -/
lemma goodReportB_spec (r : ProgressReport) (h : goodReportB r = true) :
    ∃ p q, r.processed_files = some p ∧ r.total_files = some q ∧ p ≤ q := by
  unfold goodReportB at h
  cases hp : r.processed_files with
  | none => rw [hp] at h; cases h
  | some p =>
    cases hq : r.total_files with
    | none => rw [hp, hq] at h; cases h
    | some q =>
      rw [hp, hq] at h
      exact ⟨p, q, rfl, rfl, of_decide_eq_true h⟩

/-- The start-of-attempt update preserves the between-attempts state. -/
lemma preTask_start (t : AnalysisTask) (now : Nat) (h : PreTask t) :
    PreTask (applyUpdate t now (startArgs now)) := by
  obtain ⟨h1, h2, h3, h4⟩ := h
  refine ⟨?_, ?_, ?_, ?_⟩ <;> simp [applyUpdate, startArgs, writeIfSupplied, h1, h2]

/-- A well-formed progress update preserves the between-attempts state. -/
lemma preTask_progress (t : AnalysisTask) (now : Nat) (r : ProgressReport)
    (hr : goodReportB r = true) (h : PreTask t) :
    PreTask (applyUpdate t now (progressArgs r)) := by
  obtain ⟨h1, h2, h3, h4⟩ := h
  obtain ⟨p, q, hp, hq, hpq⟩ := goodReportB_spec r hr
  refine ⟨?_, ?_, ?_, ?_⟩ <;>
    simp [applyUpdate, progressArgs, writeIfSupplied, h1, hp, hq, hpq]

/-- The failed-terminal update preserves the between-attempts state and
records the error message. -/
lemma preTask_failed (t : AnalysisTask) (now : Nat) (msg : String) (h : PreTask t) :
    PreTask (applyUpdate t now (failedArgs msg now)) := by
  obtain ⟨h1, h2, h3, h4⟩ := h
  refine ⟨?_, ?_, ?_, ?_⟩ <;> simp [applyUpdate, failedArgs, writeIfSupplied, h1, h2]

/-- The completed-terminal update establishes the Job invariant. -/
lemma taskInv_completed (t : AnalysisTask) (now : Nat) (res : ResultsDict)
    (h : PreTask t) : TaskInv (applyUpdate t now (completedArgs res now)) := by
  obtain ⟨h1, h2, h3, h4⟩ := h
  refine ⟨?_, ?_, ?_⟩ <;> simp [applyUpdate, completedArgs, writeIfSupplied, h1, h2]

/-- The between-attempts state implies the Job invariant. -/
lemma preTask_taskInv (t : AnalysisTask) (h : PreTask t) : TaskInv t := by
  obtain ⟨h1, h2, h3, h4⟩ := h
  refine ⟨h2, ?_, h4⟩
  rw [h1]
  simpa using h3

/-- `PreTask`, lifted: one update whose row-level step preserves
`PreTask` preserves `PreStore`. -/
lemma preStore_update (s : Store) (now : Nat) (a : UpdateArgs)
    (hstep : ∀ t, PreTask t → PreTask (applyUpdate t now a)) (h : PreStore s) :
    PreStore (updateTaskStatus s now a) := by
  rcases updateTaskStatus_cases s now a with he | ⟨t, ht, -, he⟩
  · rw [he]; exact h
  · rw [he]
    intro u hu
    injection hu with hu
    subst hu
    exact hstep t (h t ht)

/-- `TaskInv`, lifted: one update whose row-level step establishes
`TaskInv` from `PreTask` yields a `StoreInv` snapshot. -/
lemma storeInv_update (s : Store) (now : Nat) (a : UpdateArgs)
    (hstep : ∀ t, PreTask t → TaskInv (applyUpdate t now a)) (h : PreStore s) :
    StoreInv (updateTaskStatus s now a) := by
  rcases updateTaskStatus_cases s now a with he | ⟨t, ht, -, he⟩
  · rw [he]; exact fun u hu => preTask_taskInv u (h u hu)
  · rw [he]
    intro u hu
    injection hu with hu
    subst hu
    exact hstep t (h t ht)

/-- `PreStore` implies `StoreInv`. -/
lemma preStore_storeInv (s : Store) (h : PreStore s) : StoreInv s :=
  fun t ht => preTask_taskInv t (h t ht)

/-- Every snapshot along a run of well-formed progress updates satisfies
the invariant, and the final snapshot is still between-attempts. -/
lemma applyReports_inv (now : Nat) :
    ∀ (rs : List ProgressReport) (s : Store), PreStore s →
      (∀ r ∈ rs, goodReportB r = true) →
      (∀ x ∈ (applyReports s now rs).1, StoreInv x) ∧
      PreStore (applyReports s now rs).2 := by
  intro rs
  induction rs with
  | nil =>
    intro s hs _
    refine ⟨?_, hs⟩
    intro x hx
    simp [applyReports] at hx
  | cons r rs ih =>
    intro s hs hg
    have hr : goodReportB r = true := hg r (List.mem_cons_self r rs)
    have h1 : PreStore (updateTaskStatus s now (progressArgs r)) :=
      preStore_update s now (progressArgs r)
        (fun t ht => preTask_progress t now r hr ht) hs
    obtain ⟨htr, hfin⟩ := ih (updateTaskStatus s now (progressArgs r)) h1
      (fun x hx => hg x (List.mem_cons_of_mem r hx))
    refine ⟨?_, by simpa [applyReports] using hfin⟩
    intro x hx
    simp only [applyReports] at hx
    rcases List.mem_cons.mp hx with hx | hx
    · subst hx; exact preStore_storeInv _ h1
    · exact htr x hx

/-- Every snapshot along one attempt satisfies the invariant, and after
a failing attempt the store is again between-attempts. -/
lemma runAttempt_inv (s : Store) (now : Nat) (att : Attempt)
    (hs : PreStore s) (hg : ∀ r ∈ att.reports, goodReportB r = true) :
    (∀ x ∈ (runAttempt s now att).trace, StoreInv x) ∧
    (∀ m, att.outcome = .error m → PreStore (runAttempt s now att).final) := by
  obtain ⟨reports, outcome⟩ := att
  have hs1 : PreStore (updateTaskStatus s now (startArgs now)) :=
    preStore_update s now (startArgs now) (fun t ht => preTask_start t now ht) hs
  obtain ⟨htr, hfin⟩ := applyReports_inv now reports _ hs1 hg
  cases outcome with
  | ok res =>
    refine ⟨?_, ?_⟩
    · intro x hx
      simp only [runAttempt] at hx
      rcases List.mem_cons.mp hx with hx | hx
      · subst hx; exact preStore_storeInv _ hs1
      · rcases List.mem_append.mp hx with hx | hx
        · exact htr x hx
        · rw [List.mem_singleton] at hx
          subst hx
          exact storeInv_update _ now _
            (fun t ht => taskInv_completed t now res ht) hfin
    · intro m hm; cases hm
  | error msg =>
    refine ⟨?_, ?_⟩
    · intro x hx
      simp only [runAttempt] at hx
      rcases List.mem_cons.mp hx with hx | hx
      · subst hx; exact preStore_storeInv _ hs1
      · rcases List.mem_append.mp hx with hx | hx
        · exact htr x hx
        · rw [List.mem_singleton] at hx
          subst hx
          exact preStore_storeInv _
            (preStore_update _ now _ (fun t ht => preTask_failed t now msg ht) hfin)
    · intro m hm
      simp only [runAttempt]
      exact preStore_update _ now _ (fun t ht => preTask_failed t now msg ht) hfin

/-- Every snapshot the whole retry loop persists satisfies the
invariant, provided every progress report is well-formed. -/
lemma runWithRetries_inv (attempts : Nat → Attempt)
    (hg : ∀ k, ∀ r ∈ (attempts k).reports, goodReportB r = true) :
    ∀ (fuel k : Nat) (s : Store), PreStore s →
      ∀ x ∈ (runWithRetries attempts fuel k s).trace, StoreInv x := by
  intro fuel
  induction fuel with
  | zero =>
    intro k s hs x hx
    simp [runWithRetries] at hx
  | succ fuel ih =>
    intro k s hs x hx
    obtain ⟨htr, hfin⟩ := runAttempt_inv s k (attempts k) hs (hg k)
    simp only [runWithRetries] at hx
    cases ho : (attempts k).outcome with
    | ok res =>
      rw [runAttempt_outcome, ho] at hx
      exact htr x hx
    | error m =>
      rw [runAttempt_outcome, ho] at hx
      by_cases hk : k < maxRetries
      · rw [if_pos hk] at hx
        simp only [List.mem_append] at hx
        rcases hx with hx | hx
        · exact htr x hx
        · exact ih (k + 1) _ (hfin m ho) x hx
      · rw [if_neg hk] at hx
        exact htr x hx

/-- When every attempt fails and the store is live, the retry loop runs
down its whole fuel, backs off `retryCountdown` before every retry,
ends permanently failed, and each attempt leaves the row marked FAILED
with an error message. -/
lemma runWithRetries_allfail (attempts : Nat → Attempt)
    (hfail : ∀ k, ∃ m, (attempts k).outcome = .error m) :
    ∀ (fuel k : Nat) (s : Store), GoodStore s → fuel = maxRetries + 1 - k →
      k ≤ maxRetries →
      (runWithRetries attempts fuel k s).attemptsMade = fuel ∧
      (runWithRetries attempts fuel k s).backoffs
        = List.replicate (fuel - 1) retryCountdown ∧
      (runWithRetries attempts fuel k s).permanentFailure = true ∧
      (runWithRetries attempts fuel k s).attemptEnds.length = fuel ∧
      (∀ e ∈ (runWithRetries attempts fuel k s).attemptEnds,
        ∃ u, e.task = some u ∧ u.status = .failed ∧ u.error_message.isSome) := by
  intro fuel
  induction fuel with
  | zero =>
    intro k s hgood hfuel hk
    omega
  | succ fuel ih =>
    intro k s hgood hfuel hk
    obtain ⟨m, hm⟩ := hfail k
    have ho : (runAttempt s k (attempts k)).outcome = .error m := by
      rw [runAttempt_outcome, hm]
    obtain ⟨u, hu, hus, hue⟩ := runAttempt_failed_final s k (attempts k) m hm hgood
    by_cases hklt : k < maxRetries
    · have hfuel2 : fuel = maxRetries + 1 - (k + 1) := by omega
      obtain ⟨ih1, ih2, ih3, ih4, ih5⟩ :=
        ih (k + 1) (runAttempt s k (attempts k)).final
          (runAttempt_good s k (attempts k) hgood) hfuel2 (by omega)
      have hfp : 0 < fuel := by omega
      refine ⟨?_, ?_, ?_, ?_, ?_⟩
      · simp only [runWithRetries, ho, if_pos hklt]
        simpa using ih1
      · simp only [runWithRetries, ho, if_pos hklt]
        rw [ih2, (by omega : fuel + 1 - 1 = (fuel - 1) + 1), List.replicate_succ]
      · simp only [runWithRetries, ho, if_pos hklt]
        exact ih3
      · simp only [runWithRetries, ho, if_pos hklt]
        simpa using ih4
      · intro e he
        simp only [runWithRetries, ho, if_pos hklt, List.mem_cons] at he
        rcases he with he | he
        · subst he
          exact ⟨u, hu, hus, by rw [hue]; rfl⟩
        · exact ih5 e he
    · have hfuel0 : fuel = 0 := by omega
      subst hfuel0
      refine ⟨?_, ?_, ?_, ?_, ?_⟩
      · simp [runWithRetries, ho, hklt]
      · simp [runWithRetries, ho, hklt, List.replicate]
      · simp [runWithRetries, ho, hklt]
      · simp [runWithRetries, ho, hklt]
      · intro e he
        simp only [runWithRetries, ho, if_neg hklt, List.mem_singleton] at he
        subst he
        exact ⟨u, hu, hus, by rw [hue]; rfl⟩

/-- C1 counterexample (claim false on the code): with every attempt
failing, the job executes 4 attempts (the initial one plus
`max_retries=3` Celery retries), not exactly 3 — and the task row is
already marked FAILED at the end of the very first attempt, before the
retry budget is exhausted, because the `except` block writes the failed
update before calling `self.retry`. -/
theorem C1_counterexample :
    (runJob true "j1" "r" 1 allFailAttempts).attemptsMade = 4 ∧
    ((runJob true "j1" "r" 1 allFailAttempts).attemptEnds.map
      fun s => s.task.map (fun t => t.status))
      = [some .failed, some .failed, some .failed, some .failed] := by
  exact ⟨rfl, rfl⟩

/-- C1 amended (proved): a job whose every attempt raises is retried with
the fixed backoff of 60 time-units before each of the 3 Celery retries
(`max_retries = 3`), so it executes exactly 4 attempts in total
(1 + maxRetries); the failure becomes permanent only after the last
attempt, but the task row is marked FAILED (with an error message) at
the end of every failing attempt, including before the retry budget is
exhausted. -/
theorem C1_amended_retry (tid repo : String) (pr : Nat)
    (reps : Nat → List ProgressReport) (msgs : Nat → String) :
    maxRetries = 3 ∧ retryCountdown = 60 ∧
    (allFailRun tid repo pr reps msgs).attemptsMade = 1 + maxRetries ∧
    (allFailRun tid repo pr reps msgs).backoffs
      = List.replicate maxRetries retryCountdown ∧
    (allFailRun tid repo pr reps msgs).permanentFailure = true ∧
    (allFailRun tid repo pr reps msgs).attemptEnds.length = 1 + maxRetries ∧
    (∀ e ∈ (allFailRun tid repo pr reps msgs).attemptEnds,
      ∃ u, e.task = some u ∧ u.status = .failed ∧ u.error_message.isSome) := by
  obtain ⟨h1, h2, h3, h4, h5⟩ :=
    runWithRetries_allfail (fun k => ⟨reps k, .error (msgs k)⟩)
      (fun k => ⟨msgs k, rfl⟩) (maxRetries + 1) 0
      ⟨true, some (submittedTask tid repo pr)⟩ ⟨rfl, rfl⟩ (by omega) (by omega)
  refine ⟨rfl, rfl, ?_, ?_, ?_, ?_, ?_⟩
  · simpa [allFailRun, runJob, Nat.add_comm] using h1
  · simpa [allFailRun, runJob] using h2
  · simpa [allFailRun, runJob] using h3
  · simpa [allFailRun, runJob, Nat.add_comm] using h4
  · intro e he
    exact h5 e (by simpa [allFailRun, runJob] using he)

/-- C1 amended witness: the concrete all-failing job has its first
attempt's end state (3 retries still ahead) already marked FAILED. -/
theorem C1_amended_retry_witness :
    (((allFailRun "jw1" "r" 1 (fun _ => []) (fun _ => "boom")).attemptEnds.getD 0
        ⟨true, none⟩).task.any
      fun u => (u.status == TaskStatus.failed) && u.error_message.isSome) = true := by
  obtain ⟨u, hu, hus, hue⟩ :=
    (C1_amended_retry "jw1" "r" 1 (fun _ => []) (fun _ => "boom")).2.2.2.2.2.2
      ((allFailRun "jw1" "r" 1 (fun _ => []) (fun _ => "boom")).attemptEnds.getD 0
        ⟨true, none⟩)
      (by decide)
  rw [hu]
  simp [hus, hue]

/-- C2 counterexample (claim false on the code): after the first attempt
fails and the Celery retry re-enters the body, the PROCESSING update of
the second attempt leaves the previous attempt's `error_message` in
place (the update contract never clears a field), so the persisted state
right after that update has `status = PROCESSING` with a non-null
`errorMessage` — refuting "errorMessage is non-null iff status ==
FAILED" on the retry path the claim itself singles out. -/
theorem C2_counterexample :
    ((runJob true "j2" "r" 1 c2CexAttempts).trace.getD 2 ⟨true, none⟩)
      ∈ (runJob true "j2" "r" 1 c2CexAttempts).trace ∧
    ((runJob true "j2" "r" 1 c2CexAttempts).trace.getD 2 ⟨true, none⟩).task.map
      (fun t => (t.status, t.error_message))
      = some (.processing, some "boom") := by
  exact ⟨by decide, rfl⟩

/-- C2 amended (proved): at every persisted snapshot of a job run —
provided the (external) coordinator's progress reports carry both
counters with `processed ≤ total`, per its §4.4 contract —
`completedUnits ≤ totalUnits` holds, `results` is non-null iff the
status is COMPLETED, and `errorMessage` is non-null if the status is
FAILED.  The converse of the last clause is dropped: `error_message` is
never cleared, so after a failed attempt is retried it stays non-null
while the job re-enters PROCESSING (see the counterexample). -/
theorem C2_amended_invariant (avail : Bool) (tid repo : String) (pr : Nat)
    (attempts : Nat → Attempt)
    (hg : ∀ k, ∀ r ∈ (attempts k).reports, goodReportB r = true) :
    ∀ x ∈ (runJob avail tid repo pr attempts).trace, ∀ t, x.task = some t →
      t.processed_files ≤ t.total_files ∧
      (t.results.isSome ↔ t.status = .completed) ∧
      (t.status = .failed → t.error_message.isSome) := by
  have hpre : PreStore ⟨avail, some (submittedTask tid repo pr)⟩ := by
    intro t ht
    injection ht with ht
    subst ht
    exact ⟨rfl, le_refl 0, by simp [submittedTask], by simp [submittedTask]⟩
  intro x hx t ht
  exact runWithRetries_inv attempts hg (maxRetries + 1) 0 _ hpre x hx t ht

/-- C2 amended witness: the snapshot right after the concrete run's
progress update satisfies the invariant. -/
theorem C2_amended_invariant_witness :
    StoreInv ((runJob true "jw2" "r" 1 c2WitnessAttempts).trace.getD 1 ⟨true, none⟩) := by
  intro t ht
  have h := C2_amended_invariant true "jw2" "r" 1 c2WitnessAttempts
    (by
      intro k r hr
      simp only [c2WitnessAttempts, List.mem_singleton] at hr
      subst hr
      rfl)
    ((runJob true "jw2" "r" 1 c2WitnessAttempts).trace.getD 1 ⟨true, none⟩)
    (by decide) t ht
  exact h

end PrAnalyzer
